import Mathlib

/-!
Verification of the MedAssist stock-prediction pipeline
(`stock_price_prediction_complete.py`) against its specification.

The Python source is shallowly embedded: series are `List ℚ` (exact
arithmetic in place of IEEE doubles), numpy slices become `take`/`drop`,
and a Python call that could raise is modelled as `Except PipelineError`.
-/

namespace StockPrediction

/-- Error taxonomy named by the specification (section 7).  The Python
source defines no such exception classes; the type is used to express,
via `Except`, whether a modelled call raises. -/
inductive PipelineError where
  | configurationError
  | emptyInputError
  deriving Repr, DecidableEq

/-! ### SlidingWindowGenerator (source lines 194-239) -/

/-- State of `SlidingWindowGenerator` after `__init__`: the four
attributes assigned by the constructor.  `stride` is an integer because
Python computes `window_size - overlap` without truncation. -/
structure SlidingWindowGenerator where
  window_size : ℕ
  overlap : ℕ
  stride : ℤ
  prediction_steps : ℕ
  deriving Repr, DecidableEq

/-- The attribute assignments performed by
`SlidingWindowGenerator.__init__` (source lines 199-203):
`self.stride = window_size - overlap`, all other arguments stored as-is. -/
def mkGenerator (window_size overlap prediction_steps : ℕ) :
    SlidingWindowGenerator :=
  { window_size := window_size
    overlap := overlap
    stride := (window_size : ℤ) - (overlap : ℤ)
    prediction_steps := prediction_steps }

/-- Model of `SlidingWindowGenerator.__init__` as a Python call that could raise.
The constructor body (source lines 199-209) only assigns attributes and
prints; it contains no `raise`, so the call always returns normally. -/
def SlidingWindowGenerator.init (window_size overlap prediction_steps : ℕ) :
    Except PipelineError SlidingWindowGenerator :=
  Except.ok (mkGenerator window_size overlap prediction_steps)

/-- Model of `SlidingWindowGenerator.create_sliding_windows` (source lines 211-239).
If `len(data) < window_size + prediction_steps` it returns a pair of empty
arrays; otherwise it loops
`for i in range(0, len(data) - window_size - prediction_steps + 1, stride)`
collecting `data[i : i+window_size]` into `X` and
`data[i+window_size : i+window_size+prediction_steps]` into `y`.
`range(0, stop, s)` with `stop ≥ 1, s ≥ 1` is `List.range' 0 ⌈stop/s⌉ s`.
The trailing numpy reshape of `X` to `(samples, timesteps, 1)` does not
change which elements each window holds and is not modelled.  The model
is used under the claims' precondition `stride > 0`; for `stride ≤ 0`
the Python call raises (`ValueError` from `range` at `stride = 0`,
`IndexError` at the reshape for `stride < 0`). -/
def SlidingWindowGenerator.create_sliding_windows
    (g : SlidingWindowGenerator) (data : List ℚ) :
    List (List ℚ) × List (List ℚ) :=
  if data.length < g.window_size + g.prediction_steps then ([], [])
  else
    let s : ℕ := g.stride.toNat
    let stop : ℕ := data.length - g.window_size - g.prediction_steps + 1
    let starts : List ℕ := List.range' 0 ((stop + s - 1) / s) s
    (starts.map (fun i => (data.drop i).take g.window_size),
     starts.map (fun i => (data.drop (i + g.window_size)).take g.prediction_steps))

/-- Worked-example series of the specification: the 31 values
`[100, 101, ..., 130]`. -/
def series31 : List ℚ := List.map (fun n : ℕ => (n : ℚ)) (List.range' 100 31 1)

/-- C1: with stride `S = W - O > 0`, `create_sliding_windows` returns
exactly `(L - W - P) / S + 1` (window, target) pairs when `L ≥ W + P`
and exactly `0` pairs when `L < W + P`. -/
theorem create_sliding_windows_count (W O P : ℕ) (data : List ℚ)
    (hS : 0 < (mkGenerator W O P).stride) :
    (W + P ≤ data.length →
      ((mkGenerator W O P).create_sliding_windows data).1.length
          = (data.length - W - P) / (W - O) + 1 ∧
      ((mkGenerator W O P).create_sliding_windows data).2.length
          = (data.length - W - P) / (W - O) + 1) ∧
    (data.length < W + P →
      ((mkGenerator W O P).create_sliding_windows data).1.length = 0 ∧
      ((mkGenerator W O P).create_sliding_windows data).2.length = 0) := by
  have hOW : O < W := by
    simp only [mkGenerator] at hS
    omega
  constructor
  · intro hlen
    have hnot : ¬ data.length < W + P := not_lt.2 hlen
    simp only [SlidingWindowGenerator.create_sliding_windows, mkGenerator, if_neg hnot,
      List.length_map, List.length_range']
    have hs : ((W : ℤ) - (O : ℤ)).toNat = W - O := by omega
    have h1 : data.length - W - P + 1 + (W - O) - 1
        = data.length - W - P + (W - O) := by omega
    rw [hs, h1, Nat.add_div_right _ (by omega : 0 < W - O)]
    exact ⟨rfl, rfl⟩
  · intro hlt
    simp [SlidingWindowGenerator.create_sliding_windows, mkGenerator, hlt]

/-- C1 witness: a 31-point series with `W = 10`, `O = 5`, `P = 3` yields
`(31 - 10 - 3) / 5 + 1 = 4` pairs. -/
theorem create_sliding_windows_count_witness :
    0 < (mkGenerator 10 5 3).stride ∧
    ((mkGenerator 10 5 3).create_sliding_windows
        series31).1.length = 4 := by
  refine ⟨by decide, ?_⟩
  have h := ((create_sliding_windows_count 10 5 3
      series31 (by decide)).1 (by simp only [series31, List.length_map, List.length_range']; omega)).1
  simpa using h

/-- C2: with stride `S = W - O > 0`, whenever the `k`-th pair exists
(`k*S + W + P ≤ L`), the `k`-th window is `data[k*S : k*S+W]` and the
`k`-th target is `data[k*S+W : k*S+W+P]`, both at full length (no
truncation or padding); the start indices `k*S` are strictly increasing
in `k`, so pairs come in ascending temporal order.  In particular for
the 31-point series `[100, …, 130]` with `W = 10`, `O = 5`, `P = 3` the
windows are exactly the slices starting at indices 0, 5, 10, 15. -/
theorem create_sliding_windows_kth (W O P k : ℕ) (data : List ℚ)
    (hS : 0 < (mkGenerator W O P).stride)
    (hk : k * (W - O) + W + P ≤ data.length) :
    (((mkGenerator W O P).create_sliding_windows data).1[k]? =
        some ((data.drop (k * (W - O))).take W)) ∧
    ((data.drop (k * (W - O))).take W).length = W ∧
    (((mkGenerator W O P).create_sliding_windows data).2[k]? =
        some ((data.drop (k * (W - O) + W)).take P)) ∧
    ((data.drop (k * (W - O) + W)).take P).length = P ∧
    ((mkGenerator 10 5 3).create_sliding_windows
        series31).1 =
      [0, 5, 10, 15].map
        (fun i => ((series31).drop i).take 10) := by
  have hOW : O < W := by
    simp only [mkGenerator] at hS
    omega
  have hs0 : 0 < W - O := by omega
  obtain ⟨m, hm⟩ : ∃ m, k * (W - O) = m := ⟨_, rfl⟩
  rw [hm] at hk ⊢
  have hnot : ¬ data.length < W + P := by omega
  have hs : ((W : ℤ) - (O : ℤ)).toNat = W - O := by omega
  have hcount : data.length - W - P + 1 + (W - O) - 1
      = data.length - W - P + (W - O) := by omega
  have hkn : k < (data.length - W - P) / (W - O) + 1 := by
    have : k * (W - O) ≤ data.length - W - P := by omega
    exact Nat.lt_succ_of_le ((Nat.le_div_iff_mul_le hs0).2 this)
  refine ⟨?_, ?_, ?_, ?_, ?_⟩
  · simp only [SlidingWindowGenerator.create_sliding_windows, mkGenerator, if_neg hnot,
      List.getElem?_map, hs, hcount, Nat.add_div_right _ hs0]
    rw [List.getElem?_range' 0 (W - O) hkn]
    simp [Nat.mul_comm, hm]
  · rw [List.length_take, List.length_drop]
    omega
  · simp only [SlidingWindowGenerator.create_sliding_windows, mkGenerator, if_neg hnot,
      List.getElem?_map, hs, hcount, Nat.add_div_right _ hs0]
    rw [List.getElem?_range' 0 (W - O) hkn]
    simp [Nat.mul_comm, hm]
  · rw [List.length_take, List.length_drop]
    omega
  · rfl

/-- C2 witness: for the worked 31-point example the pair at `k = 2` is
the window starting at index 10. -/
theorem create_sliding_windows_kth_witness :
    ((mkGenerator 10 5 3).create_sliding_windows
        series31).1[2]? =
      some (((series31).drop (2 * (10 - 5))).take 10) :=
  (create_sliding_windows_kth 10 5 3 2
    series31 (by decide) (by simp only [series31, List.length_map, List.length_range']; omega)).1

/-- C6 counterexample: at `window_size = 5`, `overlap = 5` the derived
stride is `0 ≤ 0`, yet `__init__` returns normally — it does not fail
with a `ConfigurationError`. -/
theorem init_stride_zero_counterexample :
    SlidingWindowGenerator.init 5 5 10 = Except.ok (mkGenerator 5 5 10) ∧
    SlidingWindowGenerator.init 5 5 10 ≠ Except.error PipelineError.configurationError ∧
    (mkGenerator 5 5 10).stride ≤ 0 :=
  ⟨rfl, by simp [SlidingWindowGenerator.init], by decide⟩

/-- C6 amended: `SlidingWindowGenerator.__init__` performs no
validation: for every `window_size`, `overlap` and `prediction_steps` —
including combinations with `stride = window_size - overlap ≤ 0` —
construction returns normally with the attributes stored, and no
`ConfigurationError` is raised (no such exception class exists in the
source). -/
theorem init_always_succeeds (window_size overlap prediction_steps : ℕ) :
    SlidingWindowGenerator.init window_size overlap prediction_steps
      = Except.ok (mkGenerator window_size overlap prediction_steps) := rfl

/-! ### StockDataFetcher (source lines 46-191) -/

/-- Fitted state of sklearn's `MinMaxScaler(feature_range=(0, 1))`
(source line 57): the data minimum and maximum recorded by
`fit_transform`. -/
structure MinMaxScalerFit where
  data_min : ℚ
  data_max : ℚ
  deriving Repr, DecidableEq

/-- Minimum of a list of values; `0` on `[]` (only used on non-empty
input, matching the guarded call site in `preprocess_data`). -/
def listMin : List ℚ → ℚ
  | [] => 0
  | x :: xs => xs.foldl min x

/-- Maximum of a list of values; `0` on `[]`. -/
def listMax : List ℚ → ℚ
  | [] => 0
  | x :: xs => xs.foldl max x

/-- One value scaled by sklearn `MinMaxScaler(feature_range=(0, 1))`:
`(x - data_min) * scale` with `scale = 1 / (data_max - data_min)`, and
`scale = 1` when the data range is zero (sklearn's
`_handle_zeros_in_scale`, giving an all-zero output on a constant
series). -/
def minMaxScale (mn mx x : ℚ) : ℚ :=
  (x - mn) * (if mx - mn = 0 then 1 else 1 / (mx - mn))

/-- Model of `StockDataFetcher.preprocess_data` (source lines 177-191): on an
empty frame it returns `(np.array([]), np.array([]), None)`; otherwise
it min-max-scales the feature column and returns
`(scaled values, original values, fitted scaler)`. -/
def preprocess_data (data : List ℚ) :
    List ℚ × List ℚ × Option MinMaxScalerFit :=
  if data = [] then ([], [], none)
  else
    (data.map (minMaxScale (listMin data) (listMax data)), data,
     some ⟨listMin data, listMax data⟩)

/-- Model of `preprocess_data` as a Python call that could raise: the method body
(source lines 177-191) contains no `raise`, so the call always returns
normally. -/
def preprocess_dataCall (data : List ℚ) :
    Except PipelineError (List ℚ × List ℚ × Option MinMaxScalerFit) :=
  Except.ok (preprocess_data data)

/-- The fitted scaler's inverse transform:
`value = normalized * (max - min) + min`. -/
def inverse_transform (s : MinMaxScalerFit) (y : ℚ) : ℚ :=
  y * (s.data_max - s.data_min) + s.data_min

/-- C4: for every non-empty, non-constant series, applying the fitted
inverse transform to the normalized values returned by
`preprocess_data` recovers the original series exactly. -/
theorem preprocess_data_roundtrip (data : List ℚ) (hne : data ≠ [])
    (hnc : listMin data ≠ listMax data) :
    ∃ s : MinMaxScalerFit,
      (preprocess_data data).2.2 = some s ∧
      ((preprocess_data data).1).map (inverse_transform s) = data := by
  refine ⟨⟨listMin data, listMax data⟩, ?_, ?_⟩
  · simp [preprocess_data, hne]
  · have hr : listMax data - listMin data ≠ 0 := sub_ne_zero.2 (Ne.symm hnc)
    simp only [preprocess_data, if_neg hne, List.map_map]
    have hpt : ∀ x ∈ data,
        (inverse_transform ⟨listMin data, listMax data⟩ ∘
          minMaxScale (listMin data) (listMax data)) x = x := by
      intro x hx
      simp only [Function.comp, inverse_transform, minMaxScale, if_neg hr]
      field_simp
    exact (List.map_congr_left hpt).trans (List.map_id data)

/-- C4 witness: the two-point series `[1, 3]` round-trips. -/
theorem preprocess_data_roundtrip_witness :
    ∃ s : MinMaxScalerFit,
      (preprocess_data [(1 : ℚ), 3]).2.2 = some s ∧
      ((preprocess_data [(1 : ℚ), 3]).1).map (inverse_transform s) = [(1 : ℚ), 3] :=
  preprocess_data_roundtrip [(1 : ℚ), 3] (by decide) (by decide)

/-- C7 counterexample: on the zero-length series `preprocess_data`
returns normally with empty arrays and `None`; it does not fail with an
`EmptyInputError`. -/
theorem preprocess_data_empty_counterexample :
    preprocess_dataCall [] = Except.ok ([], [], none) ∧
    preprocess_dataCall [] ≠ Except.error PipelineError.emptyInputError :=
  ⟨rfl, by simp [preprocess_dataCall]⟩

/-- C7 amended: on a zero-length series `preprocess_data` raises
nothing (no `EmptyInputError` class exists in the source); it returns
`(np.array([]), np.array([]), None)` normally. -/
theorem preprocess_data_empty_returns :
    preprocess_dataCall [] = Except.ok ([], [], none) := rfl

/-- Base prices used by `_generate_simulated_data` (source lines
146-148): `{'INFY.NS': 1200, 'TCS.NS': 2300, 'CIPLA.NS': 450}` with
default `1000`. -/
def base_price (symbol : String) : ℚ :=
  if symbol = "INFY.NS" then 1200
  else if symbol = "TCS.NS" then 2300
  else if symbol = "CIPLA.NS" then 450
  else 1000

/-- The price loop of `_generate_simulated_data` (source lines
157-161), continued from `prices = [base]`: each step appends
`max(prices[-1] * (1 + change), base * 0.8)` where
`change = price_changes[i] + trend[i] + noise[i]` is the step's combined
seeded random draw.  The clamp invariant below holds for every
realisation of the draws, so they enter the model as an arbitrary
list. -/
def pricesLoop (base : ℚ) (last : ℚ) : List ℚ → List ℚ
  | [] => []
  | c :: cs =>
    max (last * (1 + c)) (base * (8 / 10)) ::
      pricesLoop base (max (last * (1 + c)) (base * (8 / 10))) cs

/-- The full simulated price series of `_generate_simulated_data`:
`prices = [base]` followed by the loop. -/
def simulated_prices (base : ℚ) (changes : List ℚ) : List ℚ :=
  base :: pricesLoop base base changes

/-- Every price appended by the loop is a `max` with `base * 0.8`, hence
at least `base * 0.8`, whatever the previous price and the draws. -/
theorem pricesLoop_ge (base : ℚ) : ∀ (cs : List ℚ) (last : ℚ),
    ∀ p ∈ pricesLoop base last cs, base * (8 / 10) ≤ p := by
  intro cs
  induction cs with
  | nil => intro last p hp; simp [pricesLoop] at hp
  | cons c cs ih =>
    intro last p hp
    rcases List.mem_cons.1 hp with h | h
    · rw [h]; exact le_max_right _ _
    · exact ih _ p h

/-- C8: for every symbol and every realisation of the seeded random
draws, the simulated series starts at the symbol's base price and every
price — the clamp applying at each step of the geometric walk — is at
least `0.8` times the base price. -/
theorem simulated_prices_clamped (symbol : String) (changes : List ℚ) :
    (simulated_prices (base_price symbol) changes).head? = some (base_price symbol) ∧
    ∀ p ∈ simulated_prices (base_price symbol) changes,
      base_price symbol * (8 / 10) ≤ p := by
  have hb : 0 < base_price symbol := by
    unfold base_price
    split_ifs <;> norm_num
  refine ⟨rfl, ?_⟩
  intro p hp
  rcases List.mem_cons.1 hp with h | h
  · rw [h]; nlinarith
  · exact pricesLoop_ge (base_price symbol) changes (base_price symbol) p h

/-- C8 witness: with one draw of `+50%` for INFY the series is
`[1200, 1800]`, and the theorem bounds its member `1800` by
`0.8 × 1200 = 960`. -/
theorem simulated_prices_clamped_witness :
    (simulated_prices (base_price "INFY.NS") [1 / 2]).head?
        = some (base_price "INFY.NS") ∧
    base_price "INFY.NS" * (8 / 10) ≤ 1800 :=
  ⟨(simulated_prices_clamped "INFY.NS" [1 / 2]).1,
   (simulated_prices_clamped "INFY.NS" [1 / 2]).2 1800 (by
      simp [simulated_prices, pricesLoop, base_price]
      rw [max_eq_left (by norm_num)]
      norm_num)⟩

/-! ### ModelEvaluator (source lines 341-392) -/

/-- numpy's arithmetic mean `np.mean`: sum divided by length (only used
on non-empty arrays by the claims). -/
def listMean (l : List ℚ) : ℚ := l.sum / (l.length : ℚ)

/-- The MAPE expression of source line 361,
`np.mean(np.abs((y_true - y_pred) / y_true)) * 100`, in exact
arithmetic.  The source divides with no zero guard; when some `y_true`
entry is `0` the elementwise quotient is a division by zero (numpy
emits `inf`/`nan` under the script's suppressed warnings) and the value
is undefined, rendered here as `none`. -/
def mape (y_true y_pred : List ℚ) : Option ℚ :=
  if 0 ∈ y_true then none
  else some (listMean ((y_true.zip y_pred).map (fun tp => |(tp.1 - tp.2) / tp.1|)) * 100)

/-- Residual sum of squares `ss_res = np.sum((y_true - y_pred) ** 2)` (source line 364). -/
def ss_res (y_true y_pred : List ℚ) : ℚ :=
  ((y_true.zip y_pred).map (fun tp => (tp.1 - tp.2) ^ 2)).sum

/-- Total sum of squares `ss_tot = np.sum((y_true - np.mean(y_true)) ** 2)` (source line 365). -/
def ss_tot (y_true : List ℚ) : ℚ :=
  (y_true.map (fun t => (t - listMean y_true) ^ 2)).sum

/-- The metrics record built by `ModelEvaluator.calculate_metrics`
(source lines 368-376).  `rmse = np.sqrt(mse)` is irrational in general
and is not a field of the rational model; no claim depends on its
numeric value (`bestCompany` below consumes stored rmse values
abstractly). -/
structure Metrics where
  company : String
  mse : ℚ
  mae : ℚ
  mape : Option ℚ
  r2_score : ℚ
  n_samples : ℕ
  deriving Repr, DecidableEq

/-- Model of `ModelEvaluator.calculate_metrics` (source lines 347-381) on
already-flattened arrays: `mse` is the mean squared error, `mae` the
mean absolute error, `mape` the unguarded percentage error, and
`r2 = 1 - ss_res / ss_tot if ss_tot != 0 else 0` (source line 366). -/
def calculate_metrics (y_true y_pred : List ℚ) (company_name : String) : Metrics :=
  { company := company_name
    mse := listMean ((y_true.zip y_pred).map (fun tp => (tp.1 - tp.2) ^ 2))
    mae := listMean ((y_true.zip y_pred).map (fun tp => |tp.1 - tp.2|))
    mape := mape y_true y_pred
    r2_score := if ss_tot y_true ≠ 0 then 1 - ss_res y_true y_pred / ss_tot y_true else 0
    n_samples := y_true.length }

/-- C3: at `y_true = [0, 10]`, `y_pred = [1, 11]` the source's MAPE
divides by the zero ground-truth entry with no guard, so the metric has
no well-defined value (numpy silently produces `inf`), contrary to the
specification's requirement of a guarded, documented result. -/
theorem mape_zero_ground_truth :
    (calculate_metrics [(0 : ℚ), 10] [(1 : ℚ), 11] "AAPL").mape = none := by
  simp [calculate_metrics, mape]

/-- C5: the evaluator's R² is exactly `0` whenever `ss_tot = 0` — in
particular for any constant ground truth such as all entries `5.0` —
and equals `1 - ss_res / ss_tot` whenever `ss_tot ≠ 0`; the computation
is total (no NaN, no exception). -/
theorem r2_score_cases (y_true y_pred : List ℚ) (c : String) :
    (ss_tot y_true = 0 → (calculate_metrics y_true y_pred c).r2_score = 0) ∧
    (ss_tot y_true ≠ 0 →
      (calculate_metrics y_true y_pred c).r2_score
        = 1 - ss_res y_true y_pred / ss_tot y_true) ∧
    ((∀ x ∈ y_true, x = (5 : ℚ)) → ss_tot y_true = 0) := by
  refine ⟨?_, ?_, ?_⟩
  · intro h
    simp [calculate_metrics, h]
  · intro h
    simp [calculate_metrics, h]
  · intro h
    rcases y_true with _ | ⟨a, l⟩
    · simp [ss_tot]
    · have hrep : (a :: l) = List.replicate (a :: l).length (5 : ℚ) :=
        List.eq_replicate_iff.2 ⟨rfl, h⟩
      have hlen : (((a :: l).length : ℚ)) ≠ 0 := by
        simp only [List.length_cons]
        positivity
      have hmean : listMean (a :: l) = 5 := by
        rw [listMean, hrep, List.sum_replicate, List.length_replicate, nsmul_eq_mul,
          mul_comm, mul_div_assoc, div_self hlen, mul_one]
      simp only [ss_tot, hmean]
      rw [hrep, List.map_replicate]
      simp

/-- C5 witness: a constant ground truth of two `5.0` entries gives R²
exactly `0`. -/
theorem r2_score_cases_witness :
    (calculate_metrics [(5 : ℚ), 5] [(1 : ℚ), 2] "AAPL").r2_score = 0 :=
  (r2_score_cases [(5 : ℚ), 5] [(1 : ℚ), 2] "AAPL").1
    ((r2_score_cases [(5 : ℚ), 5] [(1 : ℚ), 2] "AAPL").2.2 (by decide))

/-! ### Best performer (source lines 470-472) -/

/-- One step of Python's `min(keys, key=...)`: keep the incumbent unless
the next label's rmse is strictly smaller. -/
def minRmseStep (best cur : String × ℚ) : String × ℚ :=
  if cur.2 < best.2 then cur else best

/-- Model of `min(evaluator.results.keys(), key=lambda x: results[x]['rmse'])`
(source line 471): the results mapping in insertion (= iteration) order
as (label, rmse) pairs, folded with Python `min`'s keep-first-on-ties
rule; `none` on the empty mapping (which `main` never queries, guarding
with `if evaluator.results:`). -/
def bestCompany : List (String × ℚ) → Option String
  | [] => none
  | r :: rs => some ((rs.foldl minRmseStep r).1)

/-- The fold underlying `bestCompany` returns either the seed (when no
later rmse is strictly smaller) or the first strictly-smaller entry
attaining the minimum. -/
theorem foldl_minRmseStep_spec (l : List (String × ℚ)) :
    ∀ b : String × ℚ,
      (l.foldl minRmseStep b = b ∧ ∀ x ∈ l, b.2 ≤ x.2) ∨
      (∃ i, ∃ hi : i < l.length,
        l.foldl minRmseStep b = l.get ⟨i, hi⟩ ∧
        (l.get ⟨i, hi⟩).2 < b.2 ∧
        (∀ x ∈ l, (l.get ⟨i, hi⟩).2 ≤ x.2) ∧
        (∀ j, ∀ hj : j < l.length, j < i →
          (l.get ⟨i, hi⟩).2 < (l.get ⟨j, hj⟩).2)) := by
  induction l with
  | nil =>
    intro b
    left
    exact ⟨rfl, by simp⟩
  | cons a t ih =>
    intro b
    rw [List.foldl_cons]
    by_cases h : a.2 < b.2
    · rw [minRmseStep, if_pos h]
      rcases ih a with ⟨heq, hall⟩ | ⟨i, hi, heq, hlt, hall, hfirst⟩
      · right
        refine ⟨0, by simp, heq, h, ?_, ?_⟩
        · intro x hx
          rcases List.mem_cons.1 hx with rfl | hx
          · exact le_refl _
          · exact hall x hx
        · intro j hj hj0
          omega
      · right
        refine ⟨i + 1, Nat.succ_lt_succ hi, heq, lt_trans hlt h, ?_, ?_⟩
        · intro x hx
          rcases List.mem_cons.1 hx with rfl | hx
          · exact le_of_lt hlt
          · exact hall x hx
        · intro j hj hji
          cases j with
          | zero => exact hlt
          | succ j' => exact hfirst j' (by omega) (by omega)
    · rw [minRmseStep, if_neg h]
      rcases ih b with ⟨heq, hall⟩ | ⟨i, hi, heq, hlt, hall, hfirst⟩
      · left
        refine ⟨heq, ?_⟩
        intro x hx
        rcases List.mem_cons.1 hx with rfl | hx
        · exact not_lt.1 h
        · exact hall x hx
      · right
        refine ⟨i + 1, Nat.succ_lt_succ hi, heq, hlt, ?_, ?_⟩
        · intro x hx
          rcases List.mem_cons.1 hx with rfl | hx
          · exact le_of_lt (lt_of_lt_of_le hlt (not_lt.1 h))
          · exact hall x hx
        · intro j hj hji
          cases j with
          | zero => exact lt_of_lt_of_le hlt (not_lt.1 h)
          | succ j' => exact hfirst j' (by omega) (by omega)

/-- C9: on a non-empty results mapping, the reported best performer is
the label at some position `i` whose stored rmse is ≤ the rmse of every
other label, and every earlier label has strictly greater rmse — ties
are broken in favour of the first-encountered label in iteration
order. -/
theorem bestCompany_min_rmse (results : List (String × ℚ)) (hne : results ≠ []) :
    ∃ i, ∃ hi : i < results.length,
      bestCompany results = some ((results.get ⟨i, hi⟩).1) ∧
      (∀ j, ∀ hj : j < results.length,
        (results.get ⟨i, hi⟩).2 ≤ (results.get ⟨j, hj⟩).2) ∧
      (∀ j, ∀ hj : j < results.length, j < i →
        (results.get ⟨i, hi⟩).2 < (results.get ⟨j, hj⟩).2) := by
  rcases results with _ | ⟨r, rs⟩
  · exact absurd rfl hne
  rcases foldl_minRmseStep_spec rs r with ⟨heq, hall⟩ | ⟨i, hi, heq, hlt, hall, hfirst⟩
  · refine ⟨0, by simp, ?_, ?_, ?_⟩
    · simp [bestCompany, heq]
    · intro j hj
      cases j with
      | zero => exact le_refl _
      | succ j' => exact hall _ (rs.get_mem _ _)
    · intro j hj hj0
      omega
  · refine ⟨i + 1, Nat.succ_lt_succ hi, ?_, ?_, ?_⟩
    · simp [bestCompany, heq]
    · intro j hj
      cases j with
      | zero => exact le_of_lt hlt
      | succ j' => exact hall _ (rs.get_mem _ _)
    · intro j hj hji
      cases j with
      | zero => exact hlt
      | succ j' => exact hfirst j' (by omega) (by omega)

/-- C9 witness: over `[("A", 2), ("B", 1), ("C", 1)]` the theorem
produces the index of the minimal-rmse, first-encountered label (index
1, label "B"). -/
theorem bestCompany_min_rmse_witness :
    ∃ i, ∃ hi : i < ([("A", (2 : ℚ)), ("B", 1), ("C", 1)] : List (String × ℚ)).length,
      bestCompany [("A", (2 : ℚ)), ("B", 1), ("C", 1)]
          = some ((([("A", (2 : ℚ)), ("B", 1), ("C", 1)] : List (String × ℚ)).get ⟨i, hi⟩).1) ∧
      (∀ j, ∀ hj : j < ([("A", (2 : ℚ)), ("B", 1), ("C", 1)] : List (String × ℚ)).length,
        (([("A", (2 : ℚ)), ("B", 1), ("C", 1)] : List (String × ℚ)).get ⟨i, hi⟩).2
          ≤ (([("A", (2 : ℚ)), ("B", 1), ("C", 1)] : List (String × ℚ)).get ⟨j, hj⟩).2) ∧
      (∀ j, ∀ hj : j < ([("A", (2 : ℚ)), ("B", 1), ("C", 1)] : List (String × ℚ)).length,
        j < i →
        (([("A", (2 : ℚ)), ("B", 1), ("C", 1)] : List (String × ℚ)).get ⟨i, hi⟩).2
          < (([("A", (2 : ℚ)), ("B", 1), ("C", 1)] : List (String × ℚ)).get ⟨j, hj⟩).2) :=
  bestCompany_min_rmse [("A", (2 : ℚ)), ("B", 1), ("C", 1)] (by simp)

/-! ### CNNStockPredictor (source lines 242-338) -/

/-- State of `CNNStockPredictor` (source lines 245-249): `self.model`
is `None` until `build_model` runs.  A built Keras model is opaque to
this core and abstracted as a function from the input batch to the
prediction batch. -/
structure CNNStockPredictor where
  window_size : ℕ
  prediction_steps : ℕ
  model : Option (List (List ℚ) → List (List ℚ))

/-- Model of `CNNStockPredictor.predict` (source lines 331-338): if `self.model
is None` it prints an error line and returns `None`; otherwise it
returns `self.model.predict(X)`. -/
def CNNStockPredictor.predict (p : CNNStockPredictor) (X : List (List ℚ)) :
    Option (List (List ℚ)) :=
  match p.model with
  | none => none
  | some m => some (m X)

/-- C10: for every input `X`, calling `predict` while `model = None`
(before `build_model`) returns `None` and raises nothing — the
never-predict-before-train guarantee is not enforced inside the
predictor, so a violating caller silently receives `None`. -/
theorem predict_before_build (p : CNNStockPredictor) (X : List (List ℚ))
    (h : p.model = none) : p.predict X = none := by
  simp [CNNStockPredictor.predict, h]

/-- C10 witness: a freshly constructed predictor returns `None` on a
concrete batch. -/
theorem predict_before_build_witness :
    ({ window_size := 100, prediction_steps := 10, model := none } :
        CNNStockPredictor).predict [[1, 2]] = none :=
  predict_before_build
    { window_size := 100, prediction_steps := 10, model := none } [[1, 2]] rfl

end StockPrediction
